import Mathlib

/-!
Verification of the sandbox ORM demo (src/sandbox.py).

The script defines a polymorphic relational schema with Flask-SQLAlchemy:
a `food_truck` base table with a `taco_truck` joined-inheritance subtable,
a `person` base table with `employee` and `customer` subtables, a
`menu_item` table, an `order` table, and a `menu_item_orders` junction
table. A fixture is inserted (one taco truck with three menu items and
two employees, one customer, two orders), then one query is issued:

  session.query(Order).join(Order.menu_items).join(MenuItem.food_truck)
    .options(joinedload(Order.menu_items), joinedload(Order.customer),
             joinedload(Order.employee).joinedload(Employee.food_truck))
    .filter(MenuItem.price == 700)

and the results are rendered line by line.

The shallow embedding below models the database state as lists of rows
(one list per table), nullable columns as `Option`, the query as the SQL
join semantics followed by the legacy `Query.all()` identity
uniquification (SQLAlchemy 1.x deduplicates full-entity rows by primary
key, keeping the first occurrence), `joinedload` as unconditional
relationship resolution by foreign-key or junction lookup (a `joinedload`
uses an anonymous alias for its join, so the loaded collection is never
restricted by the query filter and the load options never change which
rows are selected), and the renderer as an `Except` computation that
faults when an attribute is read on an absent (null) relationship, in the
left-to-right evaluation order of the Python `print` call.
-/

namespace Sandbox

/-- Row of the `food_truck` table: integer primary key, discriminator
column `type` (always populated by the mapper with the polymorphic
identity of the inserted class), and a non-nullable unique `name`. -/
structure FoodTruckRow where
  id : Nat
  type : String
  name : String
deriving Repr, DecidableEq

/-- Row of the `person` table: integer primary key, discriminator column
`type`, and nullable `first_name` and `last_name` columns. -/
structure PersonRow where
  id : Nat
  type : String
  first_name : Option String
  last_name : Option String
deriving Repr, DecidableEq

/-- Row of the `employee` joined-inheritance subtable: primary key shared
with `person`, plus a nullable foreign key to `food_truck`. -/
structure EmployeeRow where
  id : Nat
  food_truck_id : Option Nat
deriving Repr, DecidableEq

/-- Row of the `menu_item` table: integer primary key, nullable integer
`price` in cents, nullable `name`, nullable foreign key to `food_truck`. -/
structure MenuItemRow where
  id : Nat
  price : Option Int
  name : Option String
  food_truck_id : Option Nat
deriving Repr, DecidableEq

/-- Row of the `order` table: integer primary key and nullable foreign
keys to `employee` and `customer`. -/
structure OrderRow where
  id : Nat
  employee_id : Option Nat
  customer_id : Option Nat
deriving Repr, DecidableEq

/-- Row of the `menu_item_orders` junction table. The table declares no
primary key; rows are only ever created by the relationship machinery,
which populates both columns. -/
structure JunctionRow where
  menu_item_id : Nat
  order_id : Nat
deriving Repr, DecidableEq

/-- The database state: one list of rows per table. `taco_trucks` and
`customers` are the joined-inheritance subtables holding only the shared
primary key. -/
structure Store where
  food_trucks : List FoodTruckRow
  taco_trucks : List Nat
  persons : List PersonRow
  employees : List EmployeeRow
  customers : List Nat
  menu_items : List MenuItemRow
  orders : List OrderRow
  menu_item_orders : List JunctionRow
deriving Repr, DecidableEq

/-- Python truthiness fallback `x or "NA"`: `None` and the empty string
are falsy, so both are replaced by `"NA"`. -/
def orNA : Option String → String
  | none => "NA"
  | some s => if s = "" then "NA" else s

/-- The derived `Person.name` property:
`f"{self.last_name or 'NA'}, {self.first_name or 'NA'}"`. -/
def PersonRow.name (p : PersonRow) : String :=
  orNA p.last_name ++ ", " ++ orNA p.first_name

/-- Database errors surfaced at flush or commit time. -/
inductive DBError where
  | constraintViolation
deriving Repr, DecidableEq

/-- Insert a `food_truck` row. The `name` column carries a UNIQUE
constraint and the `id` column is the primary key; violating either
raises an integrity error at commit. -/
def addFoodTruck (s : Store) (t : FoodTruckRow) : Except DBError Store :=
  if s.food_trucks.any fun u => u.name == t.name || u.id == t.id then
    .error .constraintViolation
  else
    .ok { s with food_trucks := s.food_trucks ++ [t] }

/-- Insert a `taco_truck` subtable row (primary key only). -/
def addTacoTruck (s : Store) (i : Nat) : Except DBError Store :=
  if s.taco_trucks.contains i then .error .constraintViolation
  else .ok { s with taco_trucks := s.taco_trucks ++ [i] }

/-- Insert a `person` row (primary key is the only constraint). -/
def addPerson (s : Store) (p : PersonRow) : Except DBError Store :=
  if s.persons.any fun q => q.id == p.id then .error .constraintViolation
  else .ok { s with persons := s.persons ++ [p] }

/-- Insert an `employee` subtable row. -/
def addEmployeeRow (s : Store) (e : EmployeeRow) : Except DBError Store :=
  if s.employees.any fun f => f.id == e.id then .error .constraintViolation
  else .ok { s with employees := s.employees ++ [e] }

/-- Insert a `customer` subtable row. -/
def addCustomerRow (s : Store) (i : Nat) : Except DBError Store :=
  if s.customers.contains i then .error .constraintViolation
  else .ok { s with customers := s.customers ++ [i] }

/-- Insert a `menu_item` row. Only the primary key is constrained: the
`food_truck_id` column is nullable and carries no NOT NULL constraint. -/
def addMenuItem (s : Store) (m : MenuItemRow) : Except DBError Store :=
  if s.menu_items.any fun n => n.id == m.id then .error .constraintViolation
  else .ok { s with menu_items := s.menu_items ++ [m] }

/-- Insert an `order` row. -/
def addOrder (s : Store) (o : OrderRow) : Except DBError Store :=
  if s.orders.any fun p => p.id == o.id then .error .constraintViolation
  else .ok { s with orders := s.orders ++ [o] }

/-- Insert a `menu_item_orders` junction row. The table declares no
primary key and no unique constraint, so the insert always succeeds. -/
def addJunction (s : Store) (j : JunctionRow) : Except DBError Store :=
  .ok { s with menu_item_orders := s.menu_item_orders ++ [j] }

/-- Session-style wrapper for a food truck insert: on a constraint
violation the commit fails and the store is left unchanged. -/
def sessionAddFoodTruck (s : Store) (t : FoodTruckRow) :
    Store × Option DBError :=
  match addFoodTruck s t with
  | .ok s2 => (s2, none)
  | .error e => (s, some e)

/-- The empty database right after `db.create_all()`. -/
def emptyStore : Store := ⟨[], [], [], [], [], [], [], []⟩

/-- The fixture inserted by `main()`, replayed insert by insert in the
order SQLite assigns autoincrement keys: the taco truck cascade (truck,
its three menu items, its two employees), then the customer, then the two
orders with their junction rows. -/
def buildFixture : Except DBError Store := do
  let s := emptyStore
  let s ← addFoodTruck s ⟨1, "taco_truck", "Hell\x27s Chariot"⟩
  let s ← addTacoTruck s 1
  let s ← addMenuItem s ⟨1, some 1000, some "Super Burrito", some 1⟩
  let s ← addMenuItem s ⟨2, some 700, some "California Burrito", some 1⟩
  let s ← addMenuItem s ⟨3, some 800, some "Shrimp Burrito", some 1⟩
  let s ← addPerson s ⟨1, "employee", some "Danny", some "Zuko"⟩
  let s ← addEmployeeRow s ⟨1, some 1⟩
  let s ← addPerson s ⟨2, "employee", some "Sandra", some "Dee"⟩
  let s ← addEmployeeRow s ⟨2, some 1⟩
  let s ← addPerson s ⟨3, "customer", some "Frenchy", none⟩
  let s ← addCustomerRow s 3
  let s ← addOrder s ⟨1, some 1, some 3⟩
  let s ← addJunction s ⟨1, 1⟩
  let s ← addJunction s ⟨2, 1⟩
  let s ← addOrder s ⟨2, some 2, some 3⟩
  let s ← addJunction s ⟨2, 2⟩
  pure s

/-- The fixture store, written out row by row. -/
def fixtureStore : Store where
  food_trucks := [⟨1, "taco_truck", "Hell\x27s Chariot"⟩]
  taco_trucks := [1]
  persons := [⟨1, "employee", some "Danny", some "Zuko"⟩,
              ⟨2, "employee", some "Sandra", some "Dee"⟩,
              ⟨3, "customer", some "Frenchy", none⟩]
  employees := [⟨1, some 1⟩, ⟨2, some 1⟩]
  customers := [3]
  menu_items := [⟨1, some 1000, some "Super Burrito", some 1⟩,
                 ⟨2, some 700, some "California Burrito", some 1⟩,
                 ⟨3, some 800, some "Shrimp Burrito", some 1⟩]
  orders := [⟨1, some 1, some 3⟩, ⟨2, some 2, some 3⟩]
  menu_item_orders := [⟨1, 1⟩, ⟨2, 1⟩, ⟨2, 2⟩]

theorem buildFixture_eq : buildFixture = Except.ok fixtureStore := by rfl

/-- SQL semantics of the composed join, before entity uniquification:

  SELECT order.* FROM order
    JOIN menu_item_orders ON menu_item_orders.order_id = order.id
    JOIN menu_item ON menu_item.id = menu_item_orders.menu_item_id
    JOIN food_truck ON food_truck.id = menu_item.food_truck_id
  WHERE menu_item.price = p

One output row per matching combination, so an order appears once per
junction row whose menu item passes the price filter and resolves to an
existing food truck (the join through `MenuItem.food_truck` is an inner
join). -/
def sqlJoinRows (s : Store) (p : Int) : List OrderRow :=
  s.orders.flatMap fun o =>
    (s.menu_item_orders.filter fun j => j.order_id == o.id).flatMap fun j =>
      (s.menu_items.filter fun m =>
          m.id == j.menu_item_id && m.price == some p).flatMap fun m =>
        (s.food_trucks.filter fun t =>
            m.food_truck_id == some t.id).map fun _ => o

/-- Legacy `Query` entity uniquification: full-entity result rows are
deduplicated by primary key, keeping the first occurrence. `seen` is the
set of primary keys already emitted. -/
def dedupByIdAux (seen : List Nat) : List OrderRow → List OrderRow
  | [] => []
  | o :: rest =>
    if o.id ∈ seen then dedupByIdAux seen rest
    else o :: dedupByIdAux (o.id :: seen) rest

/-- The composed query of `main()`: the SQL join filtered on the menu
item price, with `Query.all()` uniquifying the returned Order entities. -/
def composedQuery (s : Store) (p : Int) : List OrderRow :=
  dedupByIdAux [] (sqlJoinRows s p)

/-- Relationship `Order.menu_items` (secondary table `menu_item_orders`):
all menu items linked to the order through the junction table. This is
also what `joinedload(Order.menu_items)` materializes: the joinedload
join is made against an anonymous alias, so the collection is the full
relationship, unrestricted by the query filter. -/
def itemsOf (s : Store) (o : OrderRow) : List MenuItemRow :=
  s.menu_items.filter fun m =>
    s.menu_item_orders.any fun j =>
      j.order_id == o.id && j.menu_item_id == m.id

/-- Relationship `Order.customer`: resolve the nullable foreign key
through the `customer` subtable and the `person` base table (a Customer
entity is a person row carried by a customer subtable row). -/
def getCustomer (s : Store) (o : OrderRow) : Option PersonRow :=
  o.customer_id.bind fun i =>
    if s.customers.contains i then s.persons.find? fun q => q.id == i
    else none

/-- Relationship `Order.employee`: resolve the nullable foreign key
through the `person` base table and the `employee` subtable. -/
def getEmployee (s : Store) (o : OrderRow) : Option EmployeeRow :=
  o.employee_id.bind fun i =>
    if (s.persons.find? fun q => q.id == i).isSome then
      s.employees.find? fun e => e.id == i
    else none

/-- Relationship `Employee.food_truck`: resolve the nullable foreign key
to the `food_truck` table. -/
def getTruckOfEmployee (s : Store) (e : EmployeeRow) : Option FoodTruckRow :=
  e.food_truck_id.bind fun i => s.food_trucks.find? fun t => t.id == i

/-- The eager-fetch directives attached with `.options(...)`: which
relationships of each returned Order are pre-materialized. -/
structure LoadOptions where
  loadItems : Bool
  loadCustomer : Bool
  loadEmployee : Bool
deriving Repr, DecidableEq

/-- The options used by `main()`: `joinedload(Order.menu_items)`,
`joinedload(Order.customer)`, and `joinedload(Order.employee)` chained
with `joinedload(Employee.food_truck)`. -/
def mainOpts : LoadOptions := ⟨true, true, true⟩

/-- An Order entity returned by the query, together with whichever
relationship payloads the eager-fetch options pre-materialized (`none`
at the outer level when the option was not requested; the inner `Option`
is the nullable relationship itself). -/
structure LoadedOrder where
  order : OrderRow
  items : Option (List MenuItemRow)
  customer : Option (Option PersonRow)
  employee : Option (Option EmployeeRow)
  employee_truck : Option (Option FoodTruckRow)
deriving Repr, DecidableEq

/-- Execute the composed query with a set of eager-fetch options: the
selected rows are `composedQuery` (joinedload joins are aliased LEFT
OUTER joins and never restrict selection), and each selected Order
carries the collections the options asked to pre-materialize. -/
def runQuery (s : Store) (p : Int) (opts : LoadOptions) : List LoadedOrder :=
  (composedQuery s p).map fun o =>
    { order := o
      items := if opts.loadItems then some (itemsOf s o) else none
      customer := if opts.loadCustomer then some (getCustomer s o) else none
      employee := if opts.loadEmployee then some (getEmployee s o) else none
      employee_truck :=
        if opts.loadEmployee then
          some ((getEmployee s o).bind (getTruckOfEmployee s))
        else none }

/-- Query execution as a state-passing step on the store: a SELECT reads
the store and writes nothing back. -/
def runQueryS (s : Store) (p : Int) : List LoadedOrder × Store :=
  (runQuery s p mainOpts, s)

/-- Python AttributeError raised by reading an attribute on `None`. -/
inductive AccessFault where
  | noneHasNoAttr (attr : String)
deriving Repr, DecidableEq

/-- One printed line of the renderer:
`print(order.customer.name, menu_item.name, menu_item.price,
order.employee.food_truck.name, order.employee.food_truck.type)`. -/
structure Line where
  customer_name : String
  item_name : Option String
  item_price : Option Int
  truck_name : String
  truck_type : String
deriving Repr, DecidableEq

/-- Render one line, reading the relationships in the left-to-right
evaluation order of the `print` arguments: `order.customer.name` first,
then the menu item columns, then `order.employee.food_truck.name` and
`.type`. Reading an attribute of an absent relationship faults. -/
def renderLine (s : Store) (o : OrderRow) (m : MenuItemRow) :
    Except AccessFault Line :=
  match getCustomer s o with
  | none => .error (.noneHasNoAttr "name")
  | some c =>
    match getEmployee s o with
    | none => .error (.noneHasNoAttr "food_truck")
    | some e =>
      match getTruckOfEmployee s e with
      | none => .error (.noneHasNoAttr "name")
      | some t => .ok ⟨c.name, m.name, m.price, t.name, t.type⟩

/-- Inner loop of the renderer: `for menu_item in order.menu_items`. -/
def renderItems (s : Store) (o : OrderRow) :
    List MenuItemRow → Except AccessFault (List Line)
  | [] => .ok []
  | m :: ms => do
    let l ← renderLine s o m
    let rest ← renderItems s o ms
    pure (l :: rest)

/-- Outer loop of the renderer: `for order in results`, walking each
order and its eager-loaded `menu_items` collection; the first fault
propagates and aborts the run. -/
def render (s : Store) : List OrderRow → Except AccessFault (List Line)
  | [] => .ok []
  | o :: rest => do
    let ls ← renderItems s o (itemsOf s o)
    let more ← render s rest
    pure (ls ++ more)

/-- Spec-side selection predicate for the amended query contract: the
order is linked through the junction table to a menu item whose price
equals the filter value and whose `food_truck_id` resolves to an existing
food truck row. -/
def SpecSelected (s : Store) (p : Int) (o : OrderRow) : Prop :=
  ∃ j ∈ s.menu_item_orders, j.order_id = o.id ∧
    ∃ m ∈ s.menu_items, m.id = j.menu_item_id ∧ m.price = some p ∧
      ∃ t ∈ s.food_trucks, m.food_truck_id = some t.id

/-- Spec-side selection predicate written exactly as the claim states it:
the order contains at least one item whose price equals the filter value,
with no condition on the business of the item. -/
def SpecSelectedNoBiz (s : Store) (p : Int) (o : OrderRow) : Prop :=
  ∃ j ∈ s.menu_item_orders, j.order_id = o.id ∧
    ∃ m ∈ s.menu_items, m.id = j.menu_item_id ∧ m.price = some p

/-- Primary-key integrity of the order table: the id column is a primary
key, so no two order rows share an id. -/
def WellFormedOrders (s : Store) : Prop :=
  (s.orders.map OrderRow.id).Nodup

/-- Membership in the raw SQL join result is exactly the spec-side
selection predicate together with membership in the order table. -/
theorem mem_sqlJoinRows_iff (s : Store) (p : Int) (x : OrderRow) :
    x ∈ sqlJoinRows s p ↔ x ∈ s.orders ∧ SpecSelected s p x := by
  simp only [sqlJoinRows, SpecSelected, List.mem_flatMap, List.mem_filter,
    List.mem_map, beq_iff_eq, Bool.and_eq_true]
  constructor
  · rintro ⟨o, ho, j, ⟨hj, hjo⟩, m, ⟨hm, hmid, hmp⟩, t, ⟨ht, htid⟩, rfl⟩
    exact ⟨ho, j, hj, hjo, m, hm, hmid, hmp, t, ht, htid⟩
  · rintro ⟨ho, j, hj, hjo, m, hm, hmid, hmp, t, ht, htid⟩
    exact ⟨x, ho, j, ⟨hj, hjo⟩, m, ⟨hm, hmid, hmp⟩, t, ⟨ht, htid⟩, rfl⟩

theorem mem_of_mem_dedupByIdAux {x : OrderRow} :
    ∀ (seen : List Nat) (l : List OrderRow),
      x ∈ dedupByIdAux seen l → x ∈ l := by
  intro seen l
  induction l generalizing seen with
  | nil => intro h; exact absurd h (by simp [dedupByIdAux])
  | cons o rest ih =>
    intro h
    by_cases hs : o.id ∈ seen
    · simp only [dedupByIdAux, if_pos hs] at h
      exact List.mem_cons_of_mem o (ih seen h)
    · simp only [dedupByIdAux, if_neg hs, List.mem_cons] at h
      rcases h with rfl | h
      · exact List.mem_cons_self _ _
      · exact List.mem_cons_of_mem o (ih _ h)

theorem mem_dedupByIdAux_iff {x : OrderRow} :
    ∀ (l : List OrderRow),
      (∀ a b, a ∈ l → b ∈ l → a.id = b.id → a = b) →
      ∀ (seen : List Nat),
        (x ∈ dedupByIdAux seen l ↔ x ∈ l ∧ x.id ∉ seen) := by
  intro l
  induction l with
  | nil => intro _ seen; simp [dedupByIdAux]
  | cons o rest ih =>
    intro inj seen
    have inj' : ∀ a b, a ∈ rest → b ∈ rest → a.id = b.id → a = b :=
      fun a b ha hb => inj a b (List.mem_cons_of_mem o ha)
        (List.mem_cons_of_mem o hb)
    by_cases hs : o.id ∈ seen
    · simp only [dedupByIdAux, if_pos hs, ih inj' seen, List.mem_cons]
      constructor
      · rintro ⟨hx, hns⟩; exact ⟨Or.inr hx, hns⟩
      · rintro ⟨rfl | hx, hns⟩
        · exact absurd hs hns
        · exact ⟨hx, hns⟩
    · simp only [dedupByIdAux, if_neg hs, List.mem_cons,
        ih inj' (o.id :: seen)]
      constructor
      · rintro (rfl | ⟨hx, hns⟩)
        · exact ⟨Or.inl rfl, hs⟩
        · exact ⟨Or.inr hx, fun hmem => hns (Or.inr hmem)⟩
      · rintro ⟨rfl | hx, hns⟩
        · exact Or.inl rfl
        · by_cases hid : x.id = o.id
          · exact Or.inl (inj x o (List.mem_cons_of_mem o hx)
              (List.mem_cons_self o rest) hid)
          · exact Or.inr ⟨hx, fun h => h.elim hid hns⟩

theorem nodup_ids_dedupByIdAux :
    ∀ (l : List OrderRow) (seen : List Nat),
      ((dedupByIdAux seen l).map OrderRow.id).Nodup ∧
      ∀ i ∈ (dedupByIdAux seen l).map OrderRow.id, i ∉ seen := by
  intro l
  induction l with
  | nil => intro seen; simp [dedupByIdAux]
  | cons o rest ih =>
    intro seen
    by_cases hs : o.id ∈ seen
    · simpa only [dedupByIdAux, if_pos hs] using ih seen
    · have h2 := ih (o.id :: seen)
      simp only [dedupByIdAux, if_neg hs, List.map_cons, List.nodup_cons]
      refine ⟨⟨fun hmem => ?_, h2.1⟩, ?_⟩
      · exact absurd (List.mem_cons_self o.id seen) (h2.2 o.id hmem)
      · intro i hi
        simp only [List.mem_cons] at hi
        rcases hi with rfl | hi
        · exact hs
        · exact fun hmem => h2.2 i hi (List.mem_cons_of_mem _ hmem)

/-- Membership characterization of the composed query under primary-key
integrity of the order table. -/
theorem mem_composedQuery_iff {s : Store} (hwf : WellFormedOrders s)
    (p : Int) (x : OrderRow) :
    x ∈ composedQuery s p ↔ x ∈ s.orders ∧ SpecSelected s p x := by
  have injOrders := List.inj_on_of_nodup_map hwf
  have inj : ∀ a b, a ∈ sqlJoinRows s p → b ∈ sqlJoinRows s p →
      a.id = b.id → a = b := by
    intro a b ha hb
    exact injOrders ((mem_sqlJoinRows_iff s p a).mp ha).1
      ((mem_sqlJoinRows_iff s p b).mp hb).1
  rw [composedQuery, mem_dedupByIdAux_iff (sqlJoinRows s p) inj []]
  simp [mem_sqlJoinRows_iff]

/-- Signature of a result set for row-equivalence: for each returned
order, its primary key and the primary keys of its materialized items
collection. -/
def rowSig (los : List LoadedOrder) : List (Nat × Option (List Nat)) :=
  los.map fun lo => (lo.order.id, lo.items.map fun ms => ms.map MenuItemRow.id)

/-- Row-equivalence of two result sets: the same signatures occur in
both, order aside. -/
def rowEquiv (a b : List LoadedOrder) : Prop :=
  ∀ sig, sig ∈ rowSig a ↔ sig ∈ rowSig b

/-- C3: for every Individual, the derived display name is last-comma-
first with NA substituted for a missing part; in particular it is
"NA, NA" when both names are missing, "Dee, NA" with only the last name,
and "Dee, Sandra" with both names present. -/
theorem c3_display_name :
    (PersonRow.mk 1 "person" none none).name = "NA, NA" ∧
    (PersonRow.mk 2 "person" none (some "Dee")).name = "Dee, NA" ∧
    (PersonRow.mk 3 "person" (some "Sandra") (some "Dee")).name =
      "Dee, Sandra" ∧
    ∀ p : PersonRow, p.first_name ≠ some "" → p.last_name ≠ some "" →
      p.name = p.last_name.getD "NA" ++ ", " ++ p.first_name.getD "NA" := by
  refine ⟨rfl, rfl, rfl, ?_⟩
  rintro ⟨i, ty, f, l⟩ h1 h2
  cases f <;> cases l <;>
    simp_all [PersonRow.name, orNA, Option.getD]

/-- Witness for C3 at a concrete Individual. -/
theorem c3_display_name_witness :
    (PersonRow.mk 7 "person" (some "Sandra") (some "Dee")).name =
      (some "Dee").getD "NA" ++ ", " ++ (some "Sandra").getD "NA" :=
  c3_display_name.2.2.2 ⟨7, "person", some "Sandra", some "Dee"⟩
    (by decide) (by decide)

/-- C4: inserting and committing a second Business whose name equals the
name of a Business already in the store fails with a constraint
violation, and the store, the first Business included, is unchanged. -/
theorem c4_unique_name (s : Store) (t0 t : FoodTruckRow)
    (h0 : t0 ∈ s.food_trucks) (hn : t.name = t0.name) :
    sessionAddFoodTruck s t = (s, some DBError.constraintViolation) := by
  have hany : (s.food_trucks.any fun u => u.name == t.name || u.id == t.id)
      = true :=
    List.any_eq_true.mpr ⟨t0, h0, by simp [hn]⟩
  simp [sessionAddFoodTruck, addFoodTruck, hany]

/-- Witness for C4: adding a second truck named like the fixture truck
fails and leaves the fixture store unchanged. -/
theorem c4_unique_name_witness :
    sessionAddFoodTruck fixtureStore ⟨2, "food_truck", "Hell\x27s Chariot"⟩ =
      (fixtureStore, some DBError.constraintViolation) :=
  c4_unique_name fixtureStore ⟨1, "taco_truck", "Hell\x27s Chariot"⟩
    ⟨2, "food_truck", "Hell\x27s Chariot"⟩ (by decide) rfl

/-- C5: the eager-fetch directives never change which rows the composed
query selects: the selected Order rows equal the plain composed query,
and coincide for any two option sets, in particular with all directives
attached and with none. -/
theorem c5_options_independent (s : Store) (p : Int) (o1 o2 : LoadOptions) :
    (runQuery s p o1).map LoadedOrder.order = composedQuery s p ∧
    (runQuery s p o1).map LoadedOrder.order =
      (runQuery s p o2).map LoadedOrder.order := by
  have key : ∀ opts : LoadOptions,
      (runQuery s p opts).map LoadedOrder.order = composedQuery s p := by
    intro opts
    rw [runQuery, List.map_map]
    show List.map (fun o => o) (composedQuery s p) = composedQuery s p
    exact List.map_id' _
  exact ⟨key o1, (key o1).trans (key o2).symm⟩

/-- C6: when no menu item in the store has the filtered price, the
composed query returns the empty result set and the renderer produces no
output lines. -/
theorem c6_empty_result (s : Store) (p : Int)
    (h : ∀ m ∈ s.menu_items, m.price ≠ some p) :
    composedQuery s p = [] ∧
    render s (composedQuery s p) = Except.ok [] := by
  have hq : composedQuery s p = [] := by
    rw [List.eq_nil_iff_forall_not_mem]
    intro x hx
    have hx2 := mem_of_mem_dedupByIdAux [] (sqlJoinRows s p) hx
    obtain ⟨-, j, -, -, m, hm, -, hmp, -⟩ :=
      (mem_sqlJoinRows_iff s p x).mp hx2
    exact h m hm hmp
  exact ⟨hq, by rw [hq]; rfl⟩

/-- Witness for C6: no fixture item costs 999, so the query at 999 is
empty and nothing is rendered. -/
theorem c6_empty_result_witness :
    composedQuery fixtureStore 999 = [] ∧
    render fixtureStore (composedQuery fixtureStore 999) = Except.ok [] :=
  c6_empty_result fixtureStore 999 (by decide)

/-- C9: executing the composed query is a pure read: it leaves the store
unchanged, and issuing it twice with no intervening write yields
row-equivalent result sets. -/
theorem c9_idempotent (s : Store) (p : Int) :
    (runQueryS s p).2 = s ∧
    rowEquiv (runQueryS s p).1 (runQueryS (runQueryS s p).2 p).1 :=
  ⟨rfl, fun _ => Iff.rfl⟩

/-- Store refuting the claimed C2 selection contract: one order linked
through the junction table to a menu item priced 700 whose
`food_truck_id` is null; the food truck table is empty. -/
def c2CexStore : Store :=
  ⟨[], [], [], [], [], [⟨1, some 700, some "Orphan Burrito", none⟩],
   [⟨1, none, none⟩], [⟨1, 1⟩]⟩

/-- C2 counterexample: an order containing an item at the filtered price
is not returned when that item references no Business, because the
composed query joins through `MenuItem.food_truck` with an inner join. -/
theorem c2_missing_business_refuted :
    (⟨1, none, none⟩ : OrderRow) ∈ c2CexStore.orders ∧
    SpecSelectedNoBiz c2CexStore 700 ⟨1, none, none⟩ ∧
    (⟨1, none, none⟩ : OrderRow) ∉ composedQuery c2CexStore 700 := by
  refine ⟨by decide, ?_, by decide⟩
  exact ⟨⟨1, 1⟩, by decide, rfl,
    ⟨1, some 700, some "Orphan Burrito", none⟩, by decide, rfl, rfl⟩

/-- C2 amended: under primary-key integrity of the order table, the
composed query returns exactly the orders that are linked to at least
one menu item whose price equals the filter value and which references
an existing Business, each returned exactly once. -/
theorem c2_selection (s : Store) (hwf : WellFormedOrders s) (p : Int) :
    (∀ x : OrderRow,
      x ∈ composedQuery s p ↔ x ∈ s.orders ∧ SpecSelected s p x) ∧
    ((composedQuery s p).map OrderRow.id).Nodup :=
  ⟨fun x => mem_composedQuery_iff hwf p x,
   (nodup_ids_dedupByIdAux (sqlJoinRows s p) []).1⟩

/-- Witness for C2 on the fixture store at the price filter of the
script, instantiated at the first fixture order. -/
theorem c2_selection_witness :
    ((⟨1, some 1, some 3⟩ : OrderRow) ∈ composedQuery fixtureStore 700 ↔
      (⟨1, some 1, some 3⟩ : OrderRow) ∈ fixtureStore.orders ∧
        SpecSelected fixtureStore 700 ⟨1, some 1, some 3⟩) ∧
    ((composedQuery fixtureStore 700).map OrderRow.id).Nodup :=
  ⟨(c2_selection fixtureStore (by unfold WellFormedOrders; decide) 700).1
      ⟨1, some 1, some 3⟩,
   (c2_selection fixtureStore (by unfold WellFormedOrders; decide) 700).2⟩

/-- The three lines the renderer actually prints on the fixture at price
filter 700. -/
def c1Lines : List Line :=
  [⟨"NA, Frenchy", some "Super Burrito", some 1000,
    "Hell\x27s Chariot", "taco_truck"⟩,
   ⟨"NA, Frenchy", some "California Burrito", some 700,
    "Hell\x27s Chariot", "taco_truck"⟩,
   ⟨"NA, Frenchy", some "California Burrito", some 700,
    "Hell\x27s Chariot", "taco_truck"⟩]

/-- C1 counterexample: on the exact fixture, the renderer prints three
lines, not two, and no line carries "Frenchy" as the patron display name
(the derived display name of the patron is "NA, Frenchy"). -/
theorem c1_two_lines_refuted :
    render fixtureStore (composedQuery fixtureStore 700) =
      Except.ok c1Lines ∧
    c1Lines.length ≠ 2 ∧
    c1Lines.map Line.customer_name =
      ["NA, Frenchy", "NA, Frenchy", "NA, Frenchy"] :=
  ⟨rfl, by decide, rfl⟩

/-- C1 amended: with the fixture exactly as specified, the query at
price filter 700 returns both transactions, and the renderer prints
exactly three lines: two for Transaction1, whose eager-loaded collection
holds both of its items (Super Burrito at 1000 and California Burrito at
700), and one for Transaction2 with California Burrito; every line shows
patron display name "NA, Frenchy", business name "Hell\x27s Chariot" and
specialization tag "taco_truck". -/
theorem c1_scenario :
    composedQuery fixtureStore 700 =
      [⟨1, some 1, some 3⟩, ⟨2, some 2, some 3⟩] ∧
    render fixtureStore (composedQuery fixtureStore 700) =
      Except.ok c1Lines ∧
    c1Lines.length = 3 :=
  ⟨rfl, rfl, rfl⟩

/-- A menu item inserted with a null `food_truck_id`. -/
def orphanItem : MenuItemRow := ⟨4, some 500, some "Mystery Taco", none⟩

/-- The store obtained by committing the orphan item on top of the
fixture. -/
def c7Store : Store :=
  { fixtureStore with menu_items := fixtureStore.menu_items ++ [orphanItem] }

/-- C7 counterexample: the schema does not force an Item to reference a
Business: the `food_truck_id` column is nullable and carries no
constraint, so committing an Item with no Business succeeds and the
resulting store contains an Item that belongs to no Business. -/
theorem c7_orphan_item_allowed :
    addMenuItem fixtureStore orphanItem = Except.ok c7Store ∧
    orphanItem ∈ c7Store.menu_items ∧
    orphanItem.food_truck_id = none := by
  refine ⟨rfl, by decide, rfl⟩

/-- C7 amended: an Item references at most one Business (a single
foreign-key column), and in the store built by the operations in scope
every Item resolves to exactly one existing Business, the fixture truck;
the schema alone, however, does not forbid an Item without a Business. -/
theorem c7_item_business (m : MenuItemRow)
    (hm : m ∈ fixtureStore.menu_items) :
    fixtureStore.food_trucks.filter
        (fun u => m.food_truck_id == some u.id) =
      [⟨1, "taco_truck", "Hell\x27s Chariot"⟩] := by
  fin_cases hm <;> decide

/-- Witness for C7 at the first fixture item. -/
theorem c7_item_business_witness :
    fixtureStore.food_trucks.filter
        (fun u =>
          (MenuItemRow.mk 1 (some 1000) (some "Super Burrito") (some 1)
            ).food_truck_id == some u.id) =
      [⟨1, "taco_truck", "Hell\x27s Chariot"⟩] :=
  c7_item_business ⟨1, some 1000, some "Super Burrito", some 1⟩ (by decide)

theorem renderLine_error_of_no_employee {s : Store} {o : OrderRow}
    (h : getEmployee s o = none) (m : MenuItemRow) :
    ∃ f, renderLine s o m = Except.error f := by
  rcases hc : getCustomer s o with _ | c
  · exact ⟨AccessFault.noneHasNoAttr "name", by simp [renderLine, hc]⟩
  · exact ⟨AccessFault.noneHasNoAttr "food_truck",
      by simp [renderLine, hc, h]⟩

theorem renderItems_error_head {s : Store} {o : OrderRow}
    {m : MenuItemRow} {ms : List MenuItemRow}
    (h : ∃ f, renderLine s o m = Except.error f) :
    ∃ f, renderItems s o (m :: ms) = Except.error f := by
  obtain ⟨f, hf⟩ := h
  exact ⟨f, by simp only [renderItems, hf]; rfl⟩

theorem render_error_of_mem {s : Store} {results : List OrderRow}
    {o : OrderRow} (ho : o ∈ results)
    (herr : ∃ f, renderItems s o (itemsOf s o) = Except.error f) :
    ∃ f, render s results = Except.error f := by
  induction results with
  | nil => cases ho
  | cons r rest ih =>
    rcases List.mem_cons.mp ho with rfl | ho2
    · obtain ⟨f, hf⟩ := herr
      exact ⟨f, by simp only [render, hf]; rfl⟩
    · rcases hr : renderItems s r (itemsOf s r) with f | ls
      · exact ⟨f, by simp only [render, hr]; rfl⟩
      · obtain ⟨f, hf⟩ := ih ho2
        exact ⟨f, by simp only [render, hr, hf]; rfl⟩

/-- C8 amended: rendering a result set that contains a transaction whose
Staff reference is absent raises an access fault and aborts, provided
that the transaction carries at least one item (the renderer only reads
the Staff chain inside the per-item loop, so a transaction with an empty
items collection is walked without any access). -/
theorem c8_absent_staff_faults (s : Store) (results : List OrderRow)
    (o : OrderRow) (ho : o ∈ results) (he : getEmployee s o = none)
    (hi : itemsOf s o ≠ []) :
    ∃ f, render s results = Except.error f := by
  obtain ⟨m, ms, hms⟩ := List.exists_cons_of_ne_nil hi
  apply render_error_of_mem ho
  rw [hms]
  exact renderItems_error_head (renderLine_error_of_no_employee he m)

/-- Store for the C8 witness: one order with a customer, a null
employee reference, and one linked menu item. -/
def c8Store : Store :=
  ⟨[], [], [⟨1, "customer", some "A", none⟩], [], [1],
   [⟨1, some 100, some "Thing", none⟩], [⟨1, none, some 1⟩], [⟨1, 1⟩]⟩

/-- Witness for C8: rendering the order with the absent Staff reference
and a non-empty items collection faults. -/
theorem c8_absent_staff_faults_witness :
    ∃ f, render c8Store [⟨1, none, some 1⟩] = Except.error f :=
  c8_absent_staff_faults c8Store [⟨1, none, some 1⟩] ⟨1, none, some 1⟩
    (by decide) rfl (by decide)

/-- Store refuting C8 as stated: the same staff-less order, but with no
linked menu item. -/
def c8CexStore : Store :=
  ⟨[], [], [⟨1, "customer", some "A", none⟩], [], [1], [],
   [⟨1, none, some 1⟩], []⟩

/-- C8 counterexample: a result set containing a transaction whose Staff
reference is absent renders without any fault when that transaction has
no items: the run ends with an empty output instead of aborting. -/
theorem c8_no_items_no_fault :
    (⟨1, none, some 1⟩ : OrderRow).employee_id = none ∧
    getEmployee c8CexStore ⟨1, none, some 1⟩ = none ∧
    render c8CexStore [⟨1, none, some 1⟩] = Except.ok [] :=
  ⟨rfl, rfl, rfl⟩

/-- The first loaded order of the fixture query, with every relationship
materialized. -/
def lo1 : LoadedOrder where
  order := ⟨1, some 1, some 3⟩
  items := some [⟨1, some 1000, some "Super Burrito", some 1⟩,
                 ⟨2, some 700, some "California Burrito", some 1⟩]
  customer := some (some ⟨3, "customer", some "Frenchy", none⟩)
  employee := some (some ⟨1, some 1⟩)
  employee_truck := some (some ⟨1, "taco_truck", "Hell\x27s Chariot"⟩)

/-- C10: the eager-fetched items collection of every returned
transaction is the full junction-linked collection, not the filtered
one: when the items directive is attached the materialized collection is
exactly the relationship `Order.menu_items` resolved through the
junction table, and on the fixture the first returned transaction
carries an item whose price differs from the filter value. -/
theorem c10_full_collection :
    (∀ (s : Store) (p : Int) (opts : LoadOptions) (lo : LoadedOrder),
      lo ∈ runQuery s p opts → opts.loadItems = true →
      lo.items = some (itemsOf s lo.order)) ∧
    (∀ (s : Store) (o : OrderRow) (m : MenuItemRow),
      m ∈ itemsOf s o ↔ m ∈ s.menu_items ∧
        ∃ j ∈ s.menu_item_orders,
          j.order_id = o.id ∧ j.menu_item_id = m.id) ∧
    (∃ lo, lo ∈ runQuery fixtureStore 700 mainOpts ∧
      ∃ ms, lo.items = some ms ∧
        ∃ m, m ∈ ms ∧ m.price ≠ some 700) := by
  refine ⟨?_, ?_, ?_⟩
  · intro s p opts lo hmem hopts
    obtain ⟨o, ho, rfl⟩ := List.mem_map.mp hmem
    simp [hopts]
  · intro s o m
    simp only [itemsOf, List.mem_filter, List.any_eq_true,
      Bool.and_eq_true, beq_iff_eq]
  · exact ⟨lo1, by decide,
      [⟨1, some 1000, some "Super Burrito", some 1⟩,
       ⟨2, some 700, some "California Burrito", some 1⟩], rfl,
      ⟨1, some 1000, some "Super Burrito", some 1⟩, by decide, by decide⟩

/-- Witness for C10: the first loaded order of the fixture query indeed
carries the full relationship collection. -/
theorem c10_full_collection_witness :
    lo1.items = some (itemsOf fixtureStore lo1.order) :=
  c10_full_collection.1 fixtureStore 700 mainOpts lo1 (by decide) rfl

end Sandbox
